import Mathlib

/-!
Verification development for the report-generator frontend engine:
the report resolution & presentation logic of `ReportViewer.fetchData`
(src/components/DataSourceView.tsx, second component in the file),
`fetchTableData` (src/services/datasourceService.ts),
`getOperatorsForType` / `getDefaultFormatting` (ReportBuilder),
`getAliasForField` (ReportViewer), the cell renderer of `renderVisuals`,
and the prompt construction of `generateReportData` (geminiService).

All definitions are shallow embeddings of the TypeScript source.  JS objects
become structures, optional fields become `Option`, JS `===` string
comparison becomes `==` on `String`, `Array.from(new Set(xs))` becomes
`firstDedup` (first-occurrence deduplication), and the two asynchronous
delegates are represented by the concrete outcome of the dispatcher:
either an invocation descriptor for one of the delegates or an error value.
-/

namespace ReportGen

/-- Column semantic type (`ColumnType` in types.ts). -/
inductive ColumnType
  | string | number | date | boolean | currency
deriving DecidableEq, Repr

/-- Data-source kind (`DataSource.type` in types.ts). -/
inductive DSType
  | postgres | mysql | snowflake | custom
deriving DecidableEq, Repr

/-- Model of `ColumnDef` from types.ts (fields the engine reads). -/
structure ColumnDef where
  id : String
  name : String
  type : ColumnType
  aliasName : Option String := none
deriving DecidableEq, Repr

/-- Model of `TableDef` / `ViewDef` from types.ts.  Views carry the same fields the
engine reads (id, name, alias, columns, exposed), so one structure models
both; `DataSource` keeps tables and views in separate lists as the source
does. -/
structure TableDef where
  id : String
  name : String
  aliasName : Option String := none
  columns : List ColumnDef
  exposed : Bool
deriving DecidableEq, Repr

/-- Model of `DataSource` from types.ts (fields the engine reads).  `views` is
optional in the source (`dataSource.views || []`), modelled by a list
defaulting to `[]`. -/
structure DataSource where
  id : String
  name : String
  type : DSType
  tables : List TableDef
  views : List TableDef := []
deriving DecidableEq, Repr

/-- Model of `ReportColumn` from types.ts: a reference to a table/view and column,
with an optional display alias. -/
structure ReportColumn where
  tableId : String
  columnId : String
  aliasName : Option String := none
deriving DecidableEq, Repr

/-- Model of `FilterCondition`.  The operator is a plain string at runtime (the
builder writes arbitrary strings through `updateFilter`). -/
structure FilterCondition where
  id : String
  tableId : String
  columnId : String
  operator : String
  value : String
  value2 : Option String := none
deriving DecidableEq, Repr

/-- Model of `SortCondition` from types.ts. -/
structure SortCondition where
  tableId : String
  columnId : String
  direction : String
deriving DecidableEq, Repr

/-- Model of `ReportConfig` (fields the engine reads). -/
structure ReportConfig where
  id : String
  name : String
  dataSourceId : String
  selectedColumns : List ReportColumn
  filters : List FilterCondition
  sorts : List SortCondition
  visualization : String
deriving DecidableEq, Repr

/-- One entry of the operator list returned by
`ReportBuilder.getOperatorsForType`: `{ value, label }`. -/
structure OperatorOption where
  value : String
  label : String
deriving DecidableEq, Repr

/-- Model of `getOperatorsForType` from ReportBuilder.tsx: operators legal for a
column data type, keyed by the type's string name (the TS parameter is a
plain `string`, with a default case). -/
def getOperatorsForType (columnType : String) : List OperatorOption :=
  match columnType with
  | "string" =>
      [ ⟨"equals", "Equals"⟩,
        ⟨"not_equals", "Not Equals"⟩,
        ⟨"contains", "Contains"⟩,
        ⟨"not_contains", "Does Not Contain"⟩,
        ⟨"starts_with", "Starts With"⟩,
        ⟨"ends_with", "Ends With"⟩,
        ⟨"is_empty", "Is Empty"⟩,
        ⟨"is_not_empty", "Is Not Empty"⟩,
        ⟨"in", "In List"⟩ ]
  | "number" | "currency" =>
      [ ⟨"equals", "Equals"⟩,
        ⟨"not_equals", "Not Equals"⟩,
        ⟨"gt", "Greater Than"⟩,
        ⟨"gte", "Greater Than or Equal"⟩,
        ⟨"lt", "Less Than"⟩,
        ⟨"lte", "Less Than or Equal"⟩,
        ⟨"between", "Between"⟩,
        ⟨"is_null", "Is Null"⟩,
        ⟨"is_not_null", "Is Not Null"⟩ ]
  | "date" =>
      [ ⟨"equals", "On Date"⟩,
        ⟨"not_equals", "Not On Date"⟩,
        ⟨"gt", "After"⟩,
        ⟨"gte", "On or After"⟩,
        ⟨"lt", "Before"⟩,
        ⟨"lte", "On or Before"⟩,
        ⟨"between", "Between Dates"⟩,
        ⟨"is_null", "Is Null"⟩,
        ⟨"is_not_null", "Is Not Null"⟩,
        ⟨"today", "Is Today"⟩,
        ⟨"this_week", "This Week"⟩,
        ⟨"this_month", "This Month"⟩,
        ⟨"this_year", "This Year"⟩ ]
  | "boolean" =>
      [ ⟨"equals", "Is"⟩,
        ⟨"is_null", "Is Null"⟩,
        ⟨"is_not_null", "Is Not Null"⟩ ]
  | _ =>
      [ ⟨"equals", "Equals"⟩,
        ⟨"not_equals", "Not Equals"⟩,
        ⟨"contains", "Contains"⟩,
        ⟨"is_null", "Is Null"⟩,
        ⟨"is_not_null", "Is Not Null"⟩ ]

/-- Result type of `getDefaultFormatting` (ReportBuilder.tsx): the
`FormattingConfig` tagged union, one variant per column type.  The `number`
variant's optional prefix field is named `prefixStr` here (`prefix` is
reserved in Lean). -/
inductive FormattingConfig
  | date (format : String)
  | number (decimalPlaces : Nat) (thousandSeparator : Bool)
      (prefixStr : Option String) (suffix : Option String)
  | currency (symbol : String) (decimalPlaces : Nat)
      (thousandSeparator : Bool) (symbolPosition : String)
  | boolean (style : String)
  | string (caseTransform : String) (truncate : Option Nat)
deriving DecidableEq, Repr

/-- Model of `getDefaultFormatting` from ReportBuilder.tsx: the type-derived default
formatting for a freshly selected column. -/
def getDefaultFormatting (columnType : ColumnType) : FormattingConfig :=
  match columnType with
  | .date => .date "MM/DD/YYYY"
  | .number => .number 2 true none none
  | .currency => .currency "$" 2 true "before"
  | .boolean => .boolean "true/false"
  | .string => .string "none" none

/-- Worker for `firstDedup`: skip elements already seen. -/
def firstDedupAux (seen : List String) : List String → List String
  | [] => []
  | a :: l =>
    if seen.contains a then firstDedupAux seen l
    else a :: firstDedupAux (a :: seen) l

/-- First-occurrence deduplication: the order-preserving semantics of
`Array.from(new Set(xs))` in the source. -/
def firstDedup (l : List String) : List String :=
  firstDedupAux [] l

/-- The id-only lookup in the duplicate-id reconciliation of
`ReportViewer.fetchData`: `tables.find(t => t.id === id)` then
`views.find(v => v.id === id)`, yielding the name or `'UNKNOWN'`. -/
def nameForId (ds : DataSource) (tid : String) : String :=
  match ds.tables.find? (fun t => t.id == tid) with
  | some t => t.name
  | none =>
    match ds.views.find? (fun v => v.id == tid) with
    | some v => v.name
    | none => "UNKNOWN"

/-- The multi-table/view guard of `ReportViewer.fetchData`: when more than
one distinct table id is referenced, map each id to a name by id-only
lookup; proceed only when all the names agree on a single known name,
otherwise report the looked-up names (the source then raises the
single-table error naming them).  Returns `some names` exactly when the
violation fires. -/
def dedupCheck (ds : DataSource) (tableIds : List String) : Option (List String) :=
  if tableIds.length = 1 then none
  else
    let names := tableIds.map (nameForId ds)
    match firstDedup names with
    | [n] => if n == "UNKNOWN" then some names else none
    | _ => some names

/-- The target-resolution loop of `ReportViewer.fetchData`: for each id (in
order) try `tables.find(t => t.id === id || t.name === id)`, then the same
over `views`; the first hit wins.  The `Bool` is the source's `isView`
flag. -/
def findTarget (ds : DataSource) : List String → Option (TableDef × Bool)
  | [] => none
  | tid :: rest =>
    match ds.tables.find? (fun t => t.id == tid || t.name == tid) with
    | some t => some (t, false)
    | none =>
      match ds.views.find? (fun v => v.id == tid || v.name == tid) with
      | some v => some (v, true)
      | none => findTarget ds rest

/-- Error outcomes of `ReportViewer.fetchData`, one constructor per
`setError(...)` site, carrying the data interpolated into the message. -/
inductive FetchError
  | noDataSource
  | noColumnsSelected
  | multiSource (names : List String)
  | targetNotFoundOrNotExposed (tableIds : List String)
  | columnNotFound (columnId : String) (tableName : String)
deriving DecidableEq, Repr

/-- The argument list of the call
`fetchTableData(dsArg, table.name, cols, 1000000, filters)` in
`ReportViewer.fetchData`.  The caller passes `report.filters` as a fifth
argument; `fetchTableData`'s signature has only four parameters, so this
records what the call site hands over, not what the transport uses. -/
structure LiveCallArgs where
  dataSource : DataSource
  table : String
  columns : List String
  limit : Nat
  filters : List FilterCondition
deriving DecidableEq, Repr

/-- Outcome of one `fetchData` run: an invocation of the generative
delegate `generateReportData(dataSource, report, 100)`, an invocation of
the live transport `fetchTableData(...)`, or an error. -/
inductive FetchOutcome
  | genCall (ds : DataSource) (report : ReportConfig) (rowCount : Nat)
  | liveCall (args : LiveCallArgs)
  | failure (e : FetchError)
deriving DecidableEq, Repr

/-- The column-resolution loop of `ReportViewer.fetchData`: for each
selected column find it by `id === columnId || name === columnId` on the
matched table, with a (redundant) retry by name only, pushing the physical
`name`; the first unresolvable reference aborts with the column-not-found
error. -/
def resolveCols (table : TableDef) : List ReportColumn → Except FetchError (List String)
  | [] => .ok []
  | rc :: rest =>
    match table.columns.find? (fun cc => cc.id == rc.columnId || cc.name == rc.columnId) with
    | some c => (resolveCols table rest).map (fun cols => c.name :: cols)
    | none =>
      match table.columns.find? (fun cc => cc.name == rc.columnId) with
      | some c => (resolveCols table rest).map (fun cols => c.name :: cols)
      | none => .error (.columnNotFound rc.columnId table.name)

/-- The live (non-custom) branch of `ReportViewer.fetchData`: empty-column
guard, duplicate-id reconciliation, target lookup with the
not-found-or-not-exposed guard (`!table || table.exposed === false`),
column resolution, then the live call with limit 1000000 and the report's
filters as the extra argument. -/
def fetchLive (ds : DataSource) (r : ReportConfig) : FetchOutcome :=
  if r.selectedColumns.isEmpty then .failure .noColumnsSelected
  else
    match dedupCheck ds (firstDedup (r.selectedColumns.map ReportColumn.tableId)) with
    | some names => .failure (.multiSource names)
    | none =>
      match findTarget ds (firstDedup (r.selectedColumns.map ReportColumn.tableId)) with
      | none =>
          .failure (.targetNotFoundOrNotExposed
            (firstDedup (r.selectedColumns.map ReportColumn.tableId)))
      | some (t, _) =>
        if t.exposed = false then
          .failure (.targetNotFoundOrNotExposed
            (firstDedup (r.selectedColumns.map ReportColumn.tableId)))
        else
          match resolveCols t r.selectedColumns with
          | .error e => .failure e
          | .ok cols => .liveCall ⟨ds, t.name, cols, 1000000, r.filters⟩

/-- Model of `ReportViewer.fetchData`: route to the generative delegate when
`dataSource?.type === 'custom'` (before any other validation), otherwise
require a data source and run the live branch. -/
def fetchData (ds? : Option DataSource) (r : ReportConfig) : FetchOutcome :=
  match ds? with
  | none => .failure .noDataSource
  | some ds =>
    if ds.type = DSType.custom then .genCall ds r 100
    else fetchLive ds r

/-- The JSON body posted by `fetchTableData`
(src/services/datasourceService.ts): `{ table, columns, limit }` plus
either `dataSourceId` (string argument) or `dataSource` (object argument).
`filters` and `sorts` model the fields of that JSON object: `none` means
the field is absent from the payload. -/
structure QueryRequestBody where
  table : String
  columns : List String
  limit : Nat
  dataSourceId : Option String
  dataSource : Option DataSource
  filters : Option (List FilterCondition)
  sorts : Option (List SortCondition)
deriving DecidableEq, Repr

/-- The request construction of `fetchTableData(dataSourceOrId, table,
columns, limit)`: its parameter list has exactly these four entries, so any
further arguments at a call site are dropped by JavaScript semantics. -/
def fetchTableDataRequest (dataSourceOrId : Sum String DataSource)
    (table : String) (columns : List String) (limit : Nat) : QueryRequestBody :=
  { table := table
    columns := columns
    limit := limit
    dataSourceId := match dataSourceOrId with | .inl s => some s | .inr _ => none
    dataSource := match dataSourceOrId with | .inl _ => none | .inr ds => some ds
    filters := none
    sorts := none }

/-- A JSON value as delivered in a row by either delegate. -/
inductive JSValue
  | null
  | bool (b : Bool)
  | num (n : Int)
  | str (s : String)
  | arr (vs : List JSValue)
  | obj (fields : List (String × JSValue))

/-- Minimal model of the string escaping done by `JSON.stringify`. -/
def jsonEscape (s : String) : String :=
  s.foldl (fun acc c =>
    if c = '"' then acc ++ "\\\""
    else if c = '\\' then acc ++ "\\\\"
    else acc.push c) ""

mutual

/-- Model of `JSON.stringify` on a `JSValue`. -/
def jsonStringify : JSValue → String
  | .null => "null"
  | .bool b => if b then "true" else "false"
  | .num n => toString n
  | .str s => "\"" ++ jsonEscape s ++ "\""
  | .arr vs => "[" ++ jsonArrayBody vs ++ "]"
  | .obj fs => "\x7b" ++ jsonObjBody fs ++ "\x7d"

/-- Comma-joined elements of a stringified JSON array. -/
def jsonArrayBody : List JSValue → String
  | [] => ""
  | [v] => jsonStringify v
  | v :: rest => jsonStringify v ++ "," ++ jsonArrayBody rest

/-- Comma-joined `"key":value` entries of a stringified JSON object. -/
def jsonObjBody : List (String × JSValue) → String
  | [] => ""
  | [(k, v)] => "\"" ++ jsonEscape k ++ "\":" ++ jsonStringify v
  | (k, v) :: rest =>
      "\"" ++ jsonEscape k ++ "\":" ++ jsonStringify v ++ "," ++ jsonObjBody rest

end

/-- The cell renderer of `ReportViewer.renderVisuals` (table branch, and the
identical source-data table): `typeof val === 'object' ? JSON.stringify(val)
: String(val)`.  In JS, `null`, arrays and objects have `typeof 'object'`;
everything else goes through `String(...)`.  No `FormattingConfig` reaches
this expression. -/
def renderCell : JSValue → String
  | .obj fs => jsonStringify (.obj fs)
  | .arr vs => jsonStringify (.arr vs)
  | .null => jsonStringify .null
  | .str s => s
  | .num n => toString n
  | .bool b => if b then "true" else "false"

/-- Character-level model of `split('.')`: the groups of characters between
the dots, in order (JS `String.prototype.split` with a one-character
separator). -/
def splitDotChars : List Char → List (List Char)
  | [] => [[]]
  | c :: cs =>
    if c = '.' then [] :: splitDotChars cs
    else
      match splitDotChars cs with
      | [] => [[c]]
      | g :: gs => (c :: g) :: gs

/-- The dotted-name reduction in `ReportViewer.getAliasForField`:
`fieldName.includes('.') ? fieldName.split('.').pop() : fieldName`. -/
def simpleNameOf (fieldName : String) : String :=
  if fieldName.data.contains '.' then
    String.mk ((splitDotChars fieldName.data).getLastD fieldName.data)
  else fieldName

/-- JS truthiness of an optional string (`x?.alias` guards in the source):
an absent or empty alias does not count. -/
def optTruthy : Option String → Option String
  | some s => if s == "" then none else some s
  | none => none

/-- The report-level alias lookup of `getAliasForField`: the first selected
column whose `columnId` equals the trailing segment or the full field name,
when it carries a truthy alias. -/
def findReportAlias (r : ReportConfig) (fieldName : String) : Option String :=
  let simpleName := simpleNameOf fieldName
  match r.selectedColumns.find? (fun rc =>
      rc.columnId == simpleName || rc.columnId == fieldName) with
  | some rc => optTruthy rc.aliasName
  | none => none

/-- The schema-table lookup of `getAliasForField`: guarded by
`dataSource && tableId` (an empty id is falsy), tables first, then views,
matching by id or name. -/
def findSchemaTable (ds? : Option DataSource) (tableId? : Option String) :
    Option TableDef :=
  match ds?, tableId? with
  | some ds, some tid =>
    if tid == "" then none
    else
      match ds.tables.find? (fun t => t.id == tid || t.name == tid) with
      | some t => some t
      | none => ds.views.find? (fun v => v.id == tid || v.name == tid)
  | _, _ => none

/-- The schema-side alias lookup of `getAliasForField`: the table id is
consulted only when the report's selected columns carry exactly one
distinct table id (`tableIds.length === 1 ? tableIds[0] : undefined`);
within the found table the column is matched by name, id, or the qualified
`table.column` spelling, and its alias must be truthy. -/
def findSchemaAlias (r : ReportConfig) (ds? : Option DataSource)
    (fieldName : String) : Option String :=
  match findSchemaTable ds?
      (if (firstDedup (r.selectedColumns.map ReportColumn.tableId)).length = 1
       then (firstDedup (r.selectedColumns.map ReportColumn.tableId)).head?
       else none) with
  | some t =>
    match t.columns.find? (fun cc =>
        cc.name == simpleNameOf fieldName || cc.id == simpleNameOf fieldName ||
        (t.name ++ "." ++ cc.name) == fieldName) with
    | some c => optTruthy c.aliasName
    | none => none
  | none => none

/-- Model of `ReportViewer.getAliasForField(fieldName)`: map a raw returned field
name to a display label.  Report alias first, then schema alias, then the
fallback `simpleName || fieldName`. -/
def getAliasForField (r : ReportConfig) (ds? : Option DataSource)
    (fieldName : String) : String :=
  match findReportAlias r fieldName with
  | some a => a
  | none =>
    match findSchemaAlias r ds? fieldName with
    | some a => a
    | none =>
      if simpleNameOf fieldName == "" then fieldName else simpleNameOf fieldName

/-- Rendering of a `ColumnType` into the prompt text (`c.type` is already a
string in the source). -/
def typeName : ColumnType → String
  | .string => "string"
  | .number => "number"
  | .date => "date"
  | .boolean => "boolean"
  | .currency => "currency"

/-- The schema description of `generateReportData` (geminiService):
`dataSource.tables.filter(t => t.exposed).map(...)`, one entry per exposed
table carrying its name and rendered column list.  Views are not
consulted. -/
def schemaDescription (ds : DataSource) : List (String × List String) :=
  (ds.tables.filter (fun t => t.exposed)).map
    (fun t => (t.name, t.columns.map (fun c => c.name ++ " (" ++ typeName c.type ++ ")")))

/-- JS rendering of a possibly-undefined string into a template literal. -/
def undefOr : Option String → String
  | some s => s
  | none => "undefined"

/-- The `Columns needed:` line of the `generateReportData` prompt: each
selected column rendered as `${table?.name}.${col?.name}`, where the table
is found by id over all of `dataSource.tables` — without any exposure
filter. -/
def columnsNeeded (ds : DataSource) (r : ReportConfig) : List String :=
  r.selectedColumns.map (fun c =>
    let table? := ds.tables.find? (fun t => t.id == c.tableId)
    let col? := table?.bind (fun t => t.columns.find? (fun col => col.id == c.columnId))
    undefOr (table?.map TableDef.name) ++ "." ++ undefOr (col?.map ColumnDef.name))

/-- The content of the prompt `generateReportData` sends to the generative
delegate, by section: row count, the schema description, the
columns-needed list, and the JSON-stringified filters and sorts. -/
structure GenPrompt where
  rowCount : Nat
  schemaTables : List (String × List String)
  colsNeeded : List String
  filters : List FilterCondition
  sorts : List SortCondition
deriving DecidableEq, Repr

/-- Assembly of the `generateReportData` prompt from its inputs. -/
def buildGenPrompt (ds : DataSource) (r : ReportConfig) (rowCount : Nat) : GenPrompt :=
  { rowCount := rowCount
    schemaTables := schemaDescription ds
    colsNeeded := columnsNeeded ds r
    filters := r.filters
    sorts := r.sorts }

/-! ### Concrete fixtures used by counterexamples and witnesses -/

/-- An exposed `orders` table: `id : number`, `total : currency`. -/
def ordersTable : TableDef :=
  ⟨"t1", "orders", none, [⟨"c1", "id", .number, none⟩, ⟨"c2", "total", .currency, none⟩], true⟩

/-- A postgres (live) data source exposing only `ordersTable`. -/
def liveDS : DataSource := ⟨"ds1", "Shop", .postgres, [ordersTable], []⟩

/-- A `type='custom'` (generative) data source over the same schema. -/
def customDS : DataSource := ⟨"ds2", "AI Source", .custom, [ordersTable], []⟩

/-- A filter `total gt 100` referencing `ordersTable` by id. -/
def gtFilter : FilterCondition := ⟨"f1", "t1", "c2", "gt", "100", none⟩

/-- A sort on `total`, ascending. -/
def ascSort : SortCondition := ⟨"t1", "c2", "asc"⟩

/-- A live report selecting both `orders` columns with one filter and one
sort. -/
def rLive : ReportConfig :=
  ⟨"r1", "Orders Report", "ds1", [⟨"t1", "c1", none⟩, ⟨"t1", "c2", none⟩],
    [gtFilter], [ascSort], "table"⟩

/-- A report with no selected columns. -/
def rEmpty : ReportConfig := ⟨"r2", "Empty Report", "ds2", [], [], [], "table"⟩

/-- A report whose two column references name the same table once by id
(`t1`) and once by name (`orders`). -/
def rDup : ReportConfig :=
  ⟨"r3", "Dup Report", "ds1", [⟨"t1", "c1", none⟩, ⟨"orders", "c2", none⟩],
    [], [], "table"⟩

/-- A second table that shares the name `orders` under a different id, as
produced by duplicate upstream id generation. -/
def ordersTableDupId : TableDef :=
  ⟨"t2", "orders", none, [⟨"c1", "id", .number, none⟩, ⟨"c2", "total", .currency, none⟩], true⟩

/-- A live data source holding both same-named tables. -/
def liveDSDup : DataSource := ⟨"ds3", "Shop Dup", .postgres, [ordersTable, ordersTableDupId], []⟩

/-- A report referencing the same-named table under its two distinct ids. -/
def rDupIds : ReportConfig :=
  ⟨"r4", "DupIds Report", "ds3", [⟨"t1", "c1", none⟩, ⟨"t2", "c2", none⟩],
    [], [], "table"⟩

/-- A non-exposed table holding sensitive columns. -/
def hiddenTable : TableDef :=
  ⟨"h1", "secrets", none, [⟨"hc", "ssn", .string, none⟩], false⟩

/-- A live data source whose only table is not exposed. -/
def hiddenDS : DataSource := ⟨"ds4", "Hidden", .postgres, [hiddenTable], []⟩

/-- A report selecting a column of the non-exposed table. -/
def rHidden : ReportConfig :=
  ⟨"r5", "Hidden Report", "ds4", [⟨"h1", "hc", none⟩], [], [], "table"⟩

/-- A filter applying the string operator `starts_with` to the number
column `id` of `ordersTable`. -/
def badOpFilter : FilterCondition := ⟨"f2", "t1", "c1", "starts_with", "9", none⟩

/-- A live report carrying `badOpFilter`. -/
def rBadOp : ReportConfig :=
  ⟨"r6", "BadOp Report", "ds1", [⟨"t1", "c1", none⟩], [badOpFilter], [], "table"⟩

/-- A schema with an aliased column, for label-resolution runs. -/
def usersTableAliased : TableDef :=
  ⟨"t1", "users", none, [⟨"c1", "amount", .currency, some "Total Amount"⟩], true⟩

/-- A second exposed table so a report can reference two distinct ids. -/
def otherTable : TableDef := ⟨"t2", "other", none, [⟨"c2", "x", .string, none⟩], true⟩

/-- Data source with both tables of the label-resolution scenario. -/
def aliasDS : DataSource := ⟨"ds5", "Alias DB", .postgres, [usersTableAliased, otherTable], []⟩

/-- A report selecting columns from two distinct table ids, no explicit
aliases. -/
def rTwoTables : ReportConfig :=
  ⟨"r7", "TwoTables Report", "ds5", [⟨"t1", "c1", none⟩, ⟨"t2", "c2", none⟩],
    [], [], "table"⟩

/-- A data source with one exposed table and one non-exposed table. -/
def mixedDS : DataSource :=
  ⟨"ds6", "Mixed", .custom,
    [⟨"tu", "users", none, [⟨"cu", "id", .number, none⟩], true⟩,
     ⟨"sec", "secret_stuff", none, [⟨"c9", "ssn", .string, none⟩], false⟩], []⟩

/-- A report selecting the non-exposed table's column. -/
def rSecret : ReportConfig :=
  ⟨"r8", "Secret Report", "ds6", [⟨"sec", "c9", none⟩], [], [], "table"⟩

/-- Fixture equal to `mixedDS` with its non-exposed table removed. -/
def exposedOnlyMixedDS : DataSource :=
  ⟨"ds6", "Mixed", .custom,
    [⟨"tu", "users", none, [⟨"cu", "id", .number, none⟩], true⟩], []⟩

/-! ### General lemmas about the dispatcher -/

/-- A nonempty selected-column list makes `isEmpty` false. -/
theorem selectedColumns_isEmpty_false (r : ReportConfig)
    (hne : r.selectedColumns ≠ []) : r.selectedColumns.isEmpty = false := by
  cases hsel : r.selectedColumns with
  | nil => exact absurd hsel hne
  | cons a l => rfl

/-- Routing on a present non-custom source runs the live branch. -/
theorem fetchData_of_not_custom (ds : DataSource) (r : ReportConfig)
    (h : ds.type ≠ DSType.custom) : fetchData (some ds) r = fetchLive ds r := by
  simp only [fetchData]
  rw [if_neg h]

/-- Routing on a present custom source calls the generative delegate. -/
theorem fetchData_of_custom (ds : DataSource) (r : ReportConfig)
    (h : ds.type = DSType.custom) : fetchData (some ds) r = .genCall ds r 100 := by
  simp only [fetchData]
  rw [if_pos h]

/-- The live branch never produces a generative call. -/
theorem fetchLive_no_genCall (ds : DataSource) (r : ReportConfig)
    (d : DataSource) (rc : ReportConfig) (n : Nat) :
    fetchLive ds r ≠ .genCall d rc n := by
  intro h
  unfold fetchLive at h
  split at h
  · simp at h
  · split at h
    · simp at h
    · split at h
      · simp at h
      · split at h
        · simp at h
        · split at h <;> simp at h

/-- Inversion of a live call: every field of the argument list, and the
branch conditions that had to hold to reach it. -/
theorem fetchLive_liveCall_inv (ds : DataSource) (r : ReportConfig) (args : LiveCallArgs)
    (h : fetchLive ds r = .liveCall args) :
    args.dataSource = ds ∧ args.limit = 1000000 ∧ args.filters = r.filters ∧
    r.selectedColumns.isEmpty = false ∧
    dedupCheck ds (firstDedup (r.selectedColumns.map ReportColumn.tableId)) = none ∧
    ∃ t b, findTarget ds (firstDedup (r.selectedColumns.map ReportColumn.tableId)) = some (t, b) ∧
      t.exposed = true ∧ args.table = t.name ∧
      resolveCols t r.selectedColumns = .ok args.columns := by
  unfold fetchLive at h
  split at h
  case isTrue hempty => simp at h
  case isFalse hempty =>
    split at h
    case h_1 names hdedup => simp at h
    case h_2 hdedup =>
      split at h
      case h_1 hfind => simp at h
      case h_2 t b hfind =>
        split at h
        case isTrue hexp => simp at h
        case isFalse hexp =>
          split at h
          case h_1 e hres => simp at h
          case h_2 cols hres =>
            injection h with h
            subst h
            refine ⟨rfl, rfl, rfl, by simpa using hempty, hdedup,
              t, b, hfind, by simpa using hexp, rfl, hres⟩

/-- The empty-column guard of the live branch. -/
theorem fetchLive_of_empty (ds : DataSource) (r : ReportConfig)
    (h : r.selectedColumns = []) : fetchLive ds r = .failure .noColumnsSelected := by
  unfold fetchLive
  rw [h]
  rfl

/-- The multi-source guard of the live branch. -/
theorem fetchLive_of_dedup_some (ds : DataSource) (r : ReportConfig) (names : List String)
    (hne : r.selectedColumns ≠ [])
    (h : dedupCheck ds (firstDedup (r.selectedColumns.map ReportColumn.tableId)) = some names) :
    fetchLive ds r = .failure (.multiSource names) := by
  have hempty := selectedColumns_isEmpty_false r hne
  simp only [fetchLive, hempty, Bool.false_eq_true, if_false, h]

/-- The not-exposed guard of the live branch. -/
theorem fetchLive_of_not_exposed (ds : DataSource) (r : ReportConfig)
    (t : TableDef) (b : Bool)
    (hne : r.selectedColumns ≠ [])
    (hdedup : dedupCheck ds (firstDedup (r.selectedColumns.map ReportColumn.tableId)) = none)
    (hfind : findTarget ds (firstDedup (r.selectedColumns.map ReportColumn.tableId)) = some (t, b))
    (hexp : t.exposed = false) :
    fetchLive ds r =
      .failure (.targetNotFoundOrNotExposed
        (firstDedup (r.selectedColumns.map ReportColumn.tableId))) := by
  have hempty := selectedColumns_isEmpty_false r hne
  simp only [fetchLive, hempty, Bool.false_eq_true, if_false, hdedup, hfind, hexp, if_true]

/-- The successful path of the live branch. -/
theorem fetchLive_of_ok (ds : DataSource) (r : ReportConfig)
    (t : TableDef) (b : Bool) (cols : List String)
    (hne : r.selectedColumns ≠ [])
    (hdedup : dedupCheck ds (firstDedup (r.selectedColumns.map ReportColumn.tableId)) = none)
    (hfind : findTarget ds (firstDedup (r.selectedColumns.map ReportColumn.tableId)) = some (t, b))
    (hexp : t.exposed = true)
    (hres : resolveCols t r.selectedColumns = .ok cols) :
    fetchLive ds r = .liveCall ⟨ds, t.name, cols, 1000000, r.filters⟩ := by
  have hempty := selectedColumns_isEmpty_false r hne
  simp only [fetchLive, hempty, Bool.false_eq_true, if_false, hdedup, hfind, hexp, hres]
  simp

/-- Column resolution can only fail with a column-not-found error naming
the matched table. -/
theorem resolveCols_error_shape (t : TableDef) (l : List ReportColumn) :
    ∀ e, resolveCols t l = .error e → ∃ cid, e = .columnNotFound cid t.name := by
  induction l with
  | nil => intro e h; simp [resolveCols] at h
  | cons rc rest ih =>
    intro e h
    unfold resolveCols at h
    split at h
    · cases hr : resolveCols t rest with
      | error e' =>
        rw [hr] at h
        simp only [Except.map] at h
        injection h with h
        exact h ▸ ih e' hr
      | ok cols =>
        rw [hr] at h
        simp [Except.map] at h
    · split at h
      · cases hr : resolveCols t rest with
        | error e' =>
          rw [hr] at h
          simp only [Except.map] at h
          injection h with h
          exact h ▸ ih e' hr
        | ok cols =>
          rw [hr] at h
          simp [Except.map] at h
      · injection h with h
        exact ⟨rc.columnId, h.symm⟩

/-! ### Claim theorems -/

/-- C1: On a validated live acquisition (here: the `orders` report with one
filter and one sort), the dispatcher reaches the live call with the matched
table's physical name, the selected columns' physical names and the row
limit — but the JSON request built by `fetchTableData` carries no
`filters` and no `sorts` field: the filters passed as a fifth argument are
dropped by the four-parameter signature and the sorts are never passed at
all, contradicting the claim (and the repository's own tests). -/
theorem live_request_built_without_filters_or_sorts :
    fetchData (some liveDS) rLive =
      .liveCall ⟨liveDS, "orders", ["id", "total"], 1000000, [gtFilter]⟩ ∧
    rLive.filters = [gtFilter] ∧ rLive.sorts = [ascSort] ∧
    fetchTableDataRequest (Sum.inr liveDS) "orders" ["id", "total"] 1000000 =
      { table := "orders", columns := ["id", "total"], limit := 1000000,
        dataSourceId := none, dataSource := some liveDS,
        filters := none, sorts := none } := by
  refine ⟨by decide, rfl, rfl, rfl⟩

/-- C2 (counterexample): against a `type='custom'` data source, a report
with an empty `selectedColumns` list does not fail with the
no-columns-selected error — the generative delegate is called, because the
custom-source routing precedes the empty-column check. -/
theorem custom_empty_columns_calls_generative :
    fetchData (some customDS) rEmpty = .genCall customDS rEmpty 100 ∧
    fetchData (some customDS) rEmpty ≠ .failure .noColumnsSelected := by
  refine ⟨by decide, by decide⟩

/-- C2 (amended): with an empty `selectedColumns` list, acquisition against
a present non-custom source fails with the no-columns-selected error and
calls no delegate; against a custom source the generative delegate is
called regardless. -/
theorem no_columns_check_by_source_type (ds : DataSource) (r : ReportConfig)
    (hcols : r.selectedColumns = []) :
    (ds.type ≠ DSType.custom →
      fetchData (some ds) r = .failure .noColumnsSelected) ∧
    (ds.type = DSType.custom →
      fetchData (some ds) r = .genCall ds r 100) := by
  constructor
  · intro hds
    rw [fetchData_of_not_custom ds r hds]
    exact fetchLive_of_empty ds r hcols
  · intro hds
    exact fetchData_of_custom ds r hds

/-- C2 (witness): the amended claim evaluated on a live source and a custom
source, both with no selected columns. -/
theorem no_columns_check_by_source_type_witness :
    fetchData (some liveDS) rEmpty = .failure .noColumnsSelected ∧
    fetchData (some customDS) rEmpty = .genCall customDS rEmpty 100 :=
  ⟨(no_columns_check_by_source_type liveDS rEmpty rfl).1 (by decide),
   (no_columns_check_by_source_type customDS rEmpty rfl).2 rfl⟩

/-- C3: routing is exclusive — a present custom source always produces a
generative call; every generative call comes from a present custom source;
and every live call comes from a present non-custom source, which is also
the data source handed to the live delegate. -/
theorem dispatcher_routing_exclusive (ds? : Option DataSource) (r : ReportConfig) :
    (∀ ds, ds? = some ds → ds.type = DSType.custom →
      fetchData ds? r = .genCall ds r 100) ∧
    (∀ ds rc n, fetchData ds? r = .genCall ds rc n →
      ds? = some ds ∧ ds.type = DSType.custom) ∧
    (∀ args, fetchData ds? r = .liveCall args →
      ∃ ds, ds? = some ds ∧ ds.type ≠ DSType.custom ∧ args.dataSource = ds) := by
  cases ds? with
  | none =>
    refine ⟨?_, ?_, ?_⟩
    · intro ds h
      cases h
    · intro ds rc n h
      simp [fetchData] at h
    · intro args h
      simp [fetchData] at h
  | some ds =>
    by_cases hc : ds.type = DSType.custom
    · refine ⟨?_, ?_, ?_⟩
      · intro ds' h _
        cases h
        exact fetchData_of_custom ds r hc
      · intro d rc n h
        rw [fetchData_of_custom ds r hc] at h
        injection h with h1 h2 h3
        exact ⟨by rw [h1], by rw [← h1]; exact hc⟩
      · intro args h
        rw [fetchData_of_custom ds r hc] at h
        simp at h
    · refine ⟨?_, ?_, ?_⟩
      · intro ds' h hc'
        cases h
        exact absurd hc' hc
      · intro d rc n h
        rw [fetchData_of_not_custom ds r hc] at h
        exact absurd h (fetchLive_no_genCall ds r d rc n)
      · intro args h
        rw [fetchData_of_not_custom ds r hc] at h
        exact ⟨ds, rfl, hc, (fetchLive_liveCall_inv ds r args h).1⟩

/-- C3 (witness): the routing theorem evaluated on a custom and a live
source. -/
theorem dispatcher_routing_exclusive_witness :
    fetchData (some customDS) rLive = .genCall customDS rLive 100 ∧
    (∃ ds, some liveDS = some ds ∧ ds.type ≠ DSType.custom ∧
      (LiveCallArgs.mk liveDS "orders" ["id", "total"] 1000000 [gtFilter]).dataSource = ds) :=
  ⟨(dispatcher_routing_exclusive (some customDS) rLive).1 customDS rfl rfl,
   (dispatcher_routing_exclusive (some liveDS) rLive).2.2
     ⟨liveDS, "orders", ["id", "total"], 1000000, [gtFilter]⟩ (by decide)⟩

/-- C4 (counterexample): a report referencing the `orders` table once by id
(`t1`) and once by name (`orders`).  Both references resolve — by the
engine's own id-or-name target rule — to the same table, yet acquisition
fails with the multi-source violation, because the duplicate-id
reconciliation looks names up by id only and maps `orders` to `UNKNOWN`. -/
theorem same_table_by_name_multisource_violation :
    liveDS.tables.find? (fun t => t.id == "t1" || t.name == "t1") = some ordersTable ∧
    liveDS.tables.find? (fun t => t.id == "orders" || t.name == "orders") = some ordersTable ∧
    fetchData (some liveDS) rDup = .failure (.multiSource ["orders", "UNKNOWN"]) := by
  refine ⟨by decide, by decide, by decide⟩

/-- C4 (amended): the duplicate-id reconciliation compares names obtained
by id-only lookup (unresolvable ids map to `UNKNOWN`).  When that lookup
yields a single known name, acquisition never fails with the multi-source
violation and proceeds with the first resolvable id (the first hit of the
target loop); when it yields anything else, acquisition fails with the
multi-source violation naming the looked-up names.  A reference that
resolves only by name counts as `UNKNOWN` and can therefore trigger a
spurious violation. -/
theorem dedup_reconciliation_by_id_lookup (ds : DataSource) (r : ReportConfig)
    (hcustom : ds.type ≠ DSType.custom) (hne : r.selectedColumns ≠ []) :
    (dedupCheck ds (firstDedup (r.selectedColumns.map ReportColumn.tableId)) = none →
      ∀ ns, fetchData (some ds) r ≠ .failure (.multiSource ns)) ∧
    (∀ ns, dedupCheck ds (firstDedup (r.selectedColumns.map ReportColumn.tableId)) = some ns →
      fetchData (some ds) r = .failure (.multiSource ns)) ∧
    (dedupCheck ds (firstDedup (r.selectedColumns.map ReportColumn.tableId)) = none →
      ∀ t b cols,
        findTarget ds (firstDedup (r.selectedColumns.map ReportColumn.tableId)) = some (t, b) →
        t.exposed = true →
        resolveCols t r.selectedColumns = .ok cols →
        fetchData (some ds) r = .liveCall ⟨ds, t.name, cols, 1000000, r.filters⟩) := by
  have hempty := selectedColumns_isEmpty_false r hne
  refine ⟨?_, ?_, ?_⟩
  · intro hdedup ns h
    rw [fetchData_of_not_custom ds r hcustom] at h
    unfold fetchLive at h
    rw [hempty] at h
    simp only [Bool.false_eq_true, if_false, hdedup] at h
    split at h
    · simp at h
    · split at h
      · simp at h
      · split at h
        · rename_i e heq
          injection h with h
          obtain ⟨cid, rfl⟩ := resolveCols_error_shape _ _ e heq
          cases h
        · simp at h
  · intro ns hdedup
    rw [fetchData_of_not_custom ds r hcustom]
    exact fetchLive_of_dedup_some ds r ns hne hdedup
  · intro hdedup t b cols hfind hexp hres
    rw [fetchData_of_not_custom ds r hcustom]
    exact fetchLive_of_ok ds r t b cols hne hdedup hfind hexp hres

/-- C4 (witness): the amended claim evaluated on a schema with two
distinct ids for tables both named `orders` (acquisition proceeds with the
first id's table) and on the by-name counterexample input (violation
naming the looked-up names). -/
theorem dedup_reconciliation_by_id_lookup_witness :
    fetchData (some liveDSDup) rDupIds =
      .liveCall ⟨liveDSDup, "orders", ["id", "total"], 1000000, []⟩ ∧
    fetchData (some liveDS) rDup = .failure (.multiSource ["orders", "UNKNOWN"]) := by
  constructor
  · have h := (dedup_reconciliation_by_id_lookup liveDSDup rDupIds (by decide) (by decide)).2.2
      (by decide) ordersTable false ["id", "total"] (by decide) (by decide) rfl
    exact h
  · exact (dedup_reconciliation_by_id_lookup liveDS rDup (by decide) (by decide)).2.1
      ["orders", "UNKNOWN"] (by decide)

/-- C5: whenever the target loop resolves the acquisition target to a
table/view with `exposed = false`, the run fails with the
not-found-or-not-exposed error (when that branch is reached) and in no case
produces a live call: a non-exposed table/view is never the acquisition
target. -/
theorem not_exposed_blocks_acquisition (ds : DataSource) (r : ReportConfig)
    (t : TableDef) (b : Bool)
    (hfind : findTarget ds (firstDedup (r.selectedColumns.map ReportColumn.tableId)) = some (t, b))
    (hexp : t.exposed = false) :
    (ds.type ≠ DSType.custom → r.selectedColumns ≠ [] →
      dedupCheck ds (firstDedup (r.selectedColumns.map ReportColumn.tableId)) = none →
      fetchData (some ds) r =
        .failure (.targetNotFoundOrNotExposed
          (firstDedup (r.selectedColumns.map ReportColumn.tableId)))) ∧
    (∀ args, fetchData (some ds) r ≠ .liveCall args) := by
  constructor
  · intro hcustom hne hdedup
    rw [fetchData_of_not_custom ds r hcustom]
    exact fetchLive_of_not_exposed ds r t b hne hdedup hfind hexp
  · intro args h
    by_cases hc : ds.type = DSType.custom
    · rw [fetchData_of_custom ds r hc] at h
      simp at h
    · rw [fetchData_of_not_custom ds r hc] at h
      obtain ⟨-, -, -, -, -, t', b', hfind', hexp', -, -⟩ := fetchLive_liveCall_inv ds r args h
      rw [hfind'] at hfind
      injection hfind with hfind
      cases hfind
      rw [hexp'] at hexp
      cases hexp

/-- C5 (witness): a report over a data source whose only table is not
exposed fails with the not-found-or-not-exposed error. -/
theorem not_exposed_blocks_acquisition_witness :
    fetchData (some hiddenDS) rHidden = .failure (.targetNotFoundOrNotExposed ["h1"]) ∧
    (∀ args, fetchData (some hiddenDS) rHidden ≠ .liveCall args) := by
  have h := not_exposed_blocks_acquisition hiddenDS rHidden hiddenTable false
    (by decide) (by decide)
  exact ⟨h.1 (by decide) (by decide) (by decide), h.2⟩

/-- C6 (counterexample): `rBadOp` filters the number column `id` with the
string-only operator `starts_with`; the filter's column resolves to type
`number`, whose legal operator set does not contain `starts_with`, yet the
engine raises no validation error — it proceeds to the live call, handing
the filter through unvalidated. -/
theorem illegal_operator_forwarded :
    (ordersTable.columns.find? (fun cc =>
        cc.id == badOpFilter.columnId || cc.name == badOpFilter.columnId)).map
      ColumnDef.type = some ColumnType.number ∧
    badOpFilter.operator = "starts_with" ∧
    "starts_with" ∉ (getOperatorsForType "number").map OperatorOption.value ∧
    fetchData (some liveDS) rBadOp =
      .liveCall ⟨liveDS, "orders", ["id"], 1000000, [badOpFilter]⟩ := by
  refine ⟨by decide, rfl, by decide, by decide⟩

/-- C6 (amended): the acquisition path performs no operator validation at
all — whenever a live call is produced, its filter list is exactly the
report's filter list, with no legality check against the column types, and
the JSON request the transport then builds omits the filters entirely. -/
theorem filters_forwarded_unvalidated (ds : DataSource) (r : ReportConfig)
    (args : LiveCallArgs)
    (h : fetchData (some ds) r = .liveCall args) :
    args.filters = r.filters ∧
    (fetchTableDataRequest (Sum.inr args.dataSource) args.table args.columns
      args.limit).filters = none := by
  by_cases hc : ds.type = DSType.custom
  · rw [fetchData_of_custom ds r hc] at h
    simp at h
  · rw [fetchData_of_not_custom ds r hc] at h
    exact ⟨(fetchLive_liveCall_inv ds r args h).2.2.1, rfl⟩

/-- C6 (witness): the pass-through theorem evaluated on the illegal-filter
report. -/
theorem filters_forwarded_unvalidated_witness :
    (LiveCallArgs.mk liveDS "orders" ["id"] 1000000 [badOpFilter]).filters = rBadOp.filters ∧
    (fetchTableDataRequest (Sum.inr liveDS) "orders" ["id"] 1000000).filters = none :=
  filters_forwarded_unvalidated liveDS rBadOp
    ⟨liveDS, "orders", ["id"], 1000000, [badOpFilter]⟩ (by decide)

/-- C7 (counterexample): the default formatting for a date column is
`MM/DD/YYYY`, yet the cell renderer — which takes no formatting
configuration at all — displays the date value `2024-01-15` unchanged, not
as `01/15/2024`: returned values are not run through a type-aware
formatting pipeline. -/
theorem date_value_rendered_raw :
    getDefaultFormatting ColumnType.date = .date "MM/DD/YYYY" ∧
    renderCell (.str "2024-01-15") = "2024-01-15" ∧
    "2024-01-15" ≠ "01/15/2024" := by
  refine ⟨rfl, rfl, by decide⟩

/-- C7 (amended): rendering is generic stringification, total and
independent of any `FormattingConfig` — every string value (parseable date
or not) is displayed verbatim, numbers and booleans via `String(...)`, and
`null` via `JSON.stringify`. -/
theorem render_is_raw_stringification (s : String) (n : Int) (b : Bool) :
    renderCell (.str s) = s ∧
    renderCell (.num n) = toString n ∧
    renderCell (.bool b) = (if b then "true" else "false") ∧
    renderCell .null = "null" := by
  refine ⟨rfl, rfl, rfl, ?_⟩
  simp [renderCell, jsonStringify]

/-- C8: the operator matrix matches the specification table — the concrete
operator lists per type, the default list for unknown types, non-emptiness
and freedom from duplicates for every input, and the exclusivity of
`starts_with` (string only) and of the relative-date operators (date
only). -/
theorem operator_matrix_matches_spec (s : String) :
    ((getOperatorsForType "string").map OperatorOption.value =
      ["equals", "not_equals", "contains", "not_contains", "starts_with",
       "ends_with", "is_empty", "is_not_empty", "in"]) ∧
    ((getOperatorsForType "number").map OperatorOption.value =
      ["equals", "not_equals", "gt", "gte", "lt", "lte", "between",
       "is_null", "is_not_null"]) ∧
    (getOperatorsForType "currency" = getOperatorsForType "number") ∧
    ((getOperatorsForType "date").map OperatorOption.value =
      ["equals", "not_equals", "gt", "gte", "lt", "lte", "between",
       "is_null", "is_not_null", "today", "this_week", "this_month",
       "this_year"]) ∧
    ((getOperatorsForType "boolean").map OperatorOption.value =
      ["equals", "is_null", "is_not_null"]) ∧
    (s ∉ (["string", "number", "currency", "date", "boolean"] : List String) →
      (getOperatorsForType s).map OperatorOption.value =
        ["equals", "not_equals", "contains", "is_null", "is_not_null"]) ∧
    getOperatorsForType s ≠ [] ∧
    ((getOperatorsForType s).map OperatorOption.value).Nodup ∧
    (s ≠ "string" →
      "starts_with" ∉ (getOperatorsForType s).map OperatorOption.value) ∧
    (s ≠ "date" →
      ∀ op ∈ (["today", "this_week", "this_month", "this_year"] : List String),
        op ∉ (getOperatorsForType s).map OperatorOption.value) := by
  refine ⟨by decide, by decide, by decide, by decide, by decide, ?_, ?_, ?_, ?_, ?_⟩
  · intro hs
    unfold getOperatorsForType
    split
    all_goals first | decide | simp_all
  · unfold getOperatorsForType
    split
    all_goals decide
  · unfold getOperatorsForType
    split
    all_goals decide
  · intro hs
    unfold getOperatorsForType
    split
    all_goals first | decide | simp_all
  · intro hs
    unfold getOperatorsForType
    split
    all_goals first | decide | simp_all

/-- C8 (witness): the matrix theorem evaluated at an unknown type name and
at `number`/`boolean` to discharge the exclusivity hypotheses. -/
theorem operator_matrix_matches_spec_witness :
    ((getOperatorsForType "uuid").map OperatorOption.value =
      ["equals", "not_equals", "contains", "is_null", "is_not_null"]) ∧
    "starts_with" ∉ (getOperatorsForType "number").map OperatorOption.value ∧
    ∀ op ∈ (["today", "this_week", "this_month", "this_year"] : List String),
      op ∉ (getOperatorsForType "boolean").map OperatorOption.value :=
  ⟨(operator_matrix_matches_spec "uuid").2.2.2.2.2.1 (by decide),
   (operator_matrix_matches_spec "number").2.2.2.2.2.2.2.2.1 (by decide),
   (operator_matrix_matches_spec "boolean").2.2.2.2.2.2.2.2.2 (by decide)⟩

/-- C9 (counterexample): a report whose selected columns span two distinct
table ids, over a schema whose `amount` column carries the alias
`Total Amount`; no report-level alias matches, yet label resolution
returns the raw name `amount` — the schema column's alias is not used,
because the schema is only consulted for single-table reports. -/
theorem schema_alias_skipped_for_multi_table_report :
    usersTableAliased.columns.map ColumnDef.aliasName = [some "Total Amount"] ∧
    findReportAlias rTwoTables "amount" = none ∧
    getAliasForField rTwoTables (some aliasDS) "amount" = "amount" ∧
    "amount" ≠ "Total Amount" := by
  refine ⟨rfl, by decide, by decide, by decide⟩

/-- C9 (amended): label resolution is total; an explicit report-column
alias is always preferred; and when no report alias matches and the
selected columns do not carry exactly one distinct table id, the schema is
not consulted and the trailing segment of the raw field name is returned
(or the full raw name when that segment is empty). -/
theorem label_resolution_behavior (r : ReportConfig) (ds? : Option DataSource)
    (fieldName : String) :
    (∀ a, findReportAlias r fieldName = some a →
      getAliasForField r ds? fieldName = a) ∧
    (findReportAlias r fieldName = none →
      (firstDedup (r.selectedColumns.map ReportColumn.tableId)).length ≠ 1 →
      getAliasForField r ds? fieldName =
        (if simpleNameOf fieldName == "" then fieldName
         else simpleNameOf fieldName)) := by
  constructor
  · intro a ha
    unfold getAliasForField
    rw [ha]
  · intro hra hlen
    have hschema : findSchemaAlias r ds? fieldName = none := by
      unfold findSchemaAlias
      rw [if_neg hlen]
      cases ds? <;> simp [findSchemaTable]
    unfold getAliasForField
    rw [hra, hschema]

/-- C9 (witness): the amended claim evaluated on the two-table report. -/
theorem label_resolution_behavior_witness :
    getAliasForField rTwoTables (some aliasDS) "amount" = "amount" := by
  have h := (label_resolution_behavior rTwoTables (some aliasDS) "amount").2
    (by decide) (by decide)
  rw [h]
  decide

/-- C10 (counterexample): the data source `mixedDS` holds the non-exposed
table `secret_stuff`; a report selecting its `ssn` column produces a
prompt whose columns-needed line names `secret_stuff.ssn` — the name of an
`exposed = false` table appears in the generated prompt. -/
theorem non_exposed_table_leaks_into_prompt :
    (mixedDS.tables.find? (fun t => t.name == "secret_stuff")).map TableDef.exposed =
      some false ∧
    (buildGenPrompt mixedDS rSecret 100).colsNeeded = ["secret_stuff.ssn"] := by
  refine ⟨by decide, by decide⟩

/-- C10 (amended): the schema-description section of the prompt is built
from exposed tables only — it is unchanged under any modification of the
non-exposed tables, and every entry in it names an exposed table — but the
columns-needed line resolves the report's references over all tables, so a
non-exposed table can still surface there. -/
theorem prompt_schema_section_exposed_only (ds ds' : DataSource)
    (r : ReportConfig) (n : Nat)
    (h : ds.tables.filter (fun t => t.exposed) =
      ds'.tables.filter (fun t => t.exposed)) :
    (buildGenPrompt ds r n).schemaTables = (buildGenPrompt ds' r n).schemaTables ∧
    ∀ e ∈ (buildGenPrompt ds r n).schemaTables,
      ∃ t ∈ ds.tables, t.exposed = true ∧ e.1 = t.name := by
  constructor
  · simp only [buildGenPrompt, schemaDescription, h]
  · intro e he
    simp only [buildGenPrompt, schemaDescription, List.mem_map] at he
    obtain ⟨t, ht, rfl⟩ := he
    rw [List.mem_filter] at ht
    exact ⟨t, ht.1, ht.2, rfl⟩

/-- C10 (witness): removing the non-exposed table from `mixedDS` leaves
the prompt's schema section unchanged. -/
theorem prompt_schema_section_exposed_only_witness :
    (buildGenPrompt mixedDS rSecret 100).schemaTables =
      (buildGenPrompt exposedOnlyMixedDS rSecret 100).schemaTables :=
  (prompt_schema_section_exposed_only mixedDS exposedOnlyMixedDS rSecret 100
    (by decide)).1

end ReportGen
